import Mathlib

/-!
Verification of the NoctuaLight hardware-report generator against its
specification. The definitions below are shallow embeddings of the Python
source under `src/noctua/`: pure string-building code becomes Lean string
functions, OS query interfaces (WMI, psutil, cpuinfo, NVML, OpenCL) become
explicit `Except`-valued inputs, and Python exceptions become `Except.error`
values threaded through `do`-notation.
-/

set_option autoImplicit false

namespace Noctua

/-- Model of a Python exception value as caught by the collectors: the source
distinguishes `wmi.x_wmi` (and other library-specific errors) from the
blanket `Exception` catch, so the embedding tags errors accordingly. -/
inductive PyErr where
  | wmiErr (msg : String)
  | otherErr (msg : String)
deriving DecidableEq, Repr

/-- Message carried by a modelled Python exception. -/
def PyErr.msg : PyErr → String
  | .wmiErr m => m
  | .otherErr m => m

/-- Model of a file-system `OSError` / `IOError` as raised by
`os.makedirs` / `open` / `write` in `report.py`. -/
structure OsError where
  msg : String
deriving DecidableEq, Repr

/-- Model of Python `str.upper()` for the ASCII class names used here
(`component.__class__.__name__.upper()` in `report.py`). -/
def pyUpper (s : String) : String :=
  String.mk (s.toList.map Char.toUpper)

/-- Model of Python `str.capitalize()` (first character uppercased, the rest
lowercased), used for `component_name.capitalize()` in `report.py`. -/
def pyCapitalize (s : String) : String :=
  match s.toList with
  | [] => ""
  | c :: cs => String.mk (Char.toUpper c :: cs.map Char.toLower)

/-- Model of `pc_name.replace(" ", "_")` in `Report._build_report_file_path`
(single-character pattern, so the replacement is a per-character map). -/
def sanitizePcName (s : String) : String :=
  String.mk (s.toList.map (fun c => if c = ' ' then '_' else c))

/-- A hardware component as seen by `Report`: its Python class name
(`__class__.__name__`) and the texts its `get_summary()` / `get_details()`
calls returned. `report.py` only ever consumes these three pieces. -/
structure Component where
  className : String
  summary : String
  details : String
deriving DecidableEq, Repr

/-- The eight component instances in the positional-argument order of
`Report.generate_report(system, cpu, gpu, ram, disk, network, motherboard,
bios, ...)`. -/
structure ComponentSet where
  system : Component
  cpu : Component
  gpu : Component
  ram : Component
  disk : Component
  network : Component
  motherboard : Component
  bios : Component
deriving DecidableEq, Repr

/-- The `*components` tuple in the order the positional arguments are
forwarded to `_generate_overview` / `_generate_full_details`. -/
def ComponentSet.toList (cs : ComponentSet) : List Component :=
  [cs.system, cs.cpu, cs.gpu, cs.ram, cs.disk, cs.network, cs.motherboard, cs.bios]

/-- The `components_map` dict literal of
`Report._generate_selected_component_details`, as an ordered association
list. -/
def componentsMap (cs : ComponentSet) : List (String × Component) :=
  [("system", cs.system), ("cpu", cs.cpu), ("gpu", cs.gpu), ("ram", cs.ram),
   ("disk", cs.disk), ("network", cs.network), ("motherboard", cs.motherboard),
   ("bios", cs.bios)]

/-- Key order of the `self.components` selection dict, as inserted by
`Noctua.initialize_hardware_selection_variables` (note: `ram` before `gpu`). -/
def selectionKeys : List String :=
  ["system", "cpu", "ram", "disk", "network", "gpu", "motherboard", "bios"]

/-- Header of an overview section in `Report._generate_overview`:
`f"## **{component.__class__.__name__.upper()} Information**\n"`. -/
def overviewSectionHeader (className : String) : String :=
  "## **" ++ pyUpper className ++ " Information**\n"

/-- Header of a detail section in `Report._generate_full_details`:
`f"\n## Detailed {component.__class__.__name__.upper()} Information\n"`. -/
def fullDetailsSectionHeader (className : String) : String :=
  "\n## Detailed " ++ pyUpper className ++ " Information\n"

/-- Header of a detail section in
`Report._generate_selected_component_details`:
`f"\n## Detailed {component_name.capitalize()} Information\n"`. -/
def selectedDetailsSectionHeader (componentName : String) : String :=
  "\n## Detailed " ++ pyCapitalize componentName ++ " Information\n"

/-- `Report._generate_overview`: starts from the `# **Hardware Overview**`
banner and appends, per component, its header, `get_summary()` text and a
`---` horizontal-rule line. -/
def generateOverview (components : List Component) : String :=
  components.foldl
    (fun acc c => acc ++ (overviewSectionHeader c.className ++ (c.summary ++ "\n---\n")))
    "# **Hardware Overview**\n\n"

/-- `Report._generate_full_details`: appends, per component, its detail
header, `get_details()` text and a `---` line. -/
def generateFullDetails (components : List Component) : String :=
  components.foldl
    (fun acc c => acc ++ (fullDetailsSectionHeader c.className ++ (c.details ++ "\n---\n")))
    ""

/-- `Report._generate_selected_component_details`: iterates the selection
dict in insertion order; for each flag set to true it looks the name up in
`components_map` and, when found, appends header, `get_details()` text and a
`---` line. -/
def generateSelectedComponentDetails (selection : List (String × Bool))
    (cmap : List (String × Component)) : String :=
  selection.foldl
    (fun acc kv =>
      if kv.2 then
        match cmap.lookup kv.1 with
        | some c => acc ++ (selectedDetailsSectionHeader kv.1 ++ (c.details ++ "\n---\n"))
        | none => acc
      else acc)
    ""

/-- The report header built at the top of `Report._compile_report_content`:
`# Hardware Report`, the generation timestamp, and the PC name when the
Python-truthy check `if pc_name:` passes (i.e. the name is non-empty). -/
def headerContent (timestamp pcName : String) : String :=
  let rc := "# Hardware Report\n\n**Generated on:** " ++ timestamp ++ "\n"
  if pcName ≠ "" then rc ++ ("**PC Name:** " ++ pcName ++ "\n") else rc

/-- `Report._compile_report_content`. `selection` models the
`self.components` dict (name, BooleanVar value) in insertion order,
`includeAll` models `self.all_components_selection.get()`, `detailed` models
`self.detailed_report_option.get()`. -/
def compileReportContent (selection : List (String × Bool))
    (includeAll detailed : Bool) (timestamp pcName : String)
    (cs : ComponentSet) : String :=
  let rc1 := headerContent timestamp pcName
  let rc2 := if includeAll then rc1 ++ generateOverview cs.toList else rc1
  if detailed then
    rc2 ++ generateFullDetails cs.toList
  else
    let selectedComponents := (selection.filter (fun kv => kv.2)).map (fun kv => kv.1)
    if selectedComponents ≠ [] then
      rc2 ++ generateSelectedComponentDetails selection (componentsMap cs)
    else
      rc2 ++ "\nNo components selected."

/-- Filename built by `Report._build_report_file_path`: timestamp format
`%Y%m%d_%H%M%S` is an input (time is external), and the PC name is sanitized
or defaulted via `pc_name.replace(" ", "_") if pc_name else "unnamed_pc"`. -/
def buildReportFileName (pcName timestamp : String) : String :=
  "hardware_report_" ++ (if pcName ≠ "" then sanitizePcName pcName else "unnamed_pc") ++
    "_" ++ timestamp ++ ".md"

/-- `os.path.join("result", filename)` with the portable separator. -/
def buildReportFilePath (pcName timestamp : String) : String :=
  "result/" ++ buildReportFileName pcName timestamp

/-- Outcome of a call into the report writer: `raised` is the exception (if
any) escaping to the caller, `logs` the messages sent to the logger. -/
structure SaveResult where
  raised : Option OsError
  logs : List String
deriving DecidableEq, Repr

/-- `Report._save_report`: the `os.makedirs` / `open` / `write` sequence is
modelled by its combined outcome `writeOutcome`; the source wraps it in
`try/except (OSError, IOError)` and the handler only logs - it does not
re-raise. -/
def saveReport (writeOutcome : Except OsError Unit) (filePath : String) : SaveResult :=
  match writeOutcome with
  | .ok _ =>
      { raised := none
        logs := ["Report successfully saved at: " ++ filePath] }
  | .error e =>
      { raised := none
        logs := ["Failed to save the report due to an error: " ++ e.msg] }

/-- `Report.generate_report` around `_save_report`: the whole body sits in a
`try/except Exception` whose handler logs
`"Report generation failed due to an error."`; on normal completion it logs
the success message. Path building and content compilation are pure, so the
only fallible step is the save. -/
def generateReport (writeOutcome : Except OsError Unit) (filePath : String) : SaveResult :=
  let inner := saveReport writeOutcome filePath
  match inner.raised with
  | some _ =>
      { raised := none
        logs := inner.logs ++ ["Report generation failed due to an error."] }
  | none =>
      { raised := none
        logs := inner.logs ++ ["Report successfully created at: " ++ filePath] }

/-- Splits a leading run of ASCII digits off a character list (the greedy
`\d+` step of the regex in `CPU._format_value`). -/
def takeDigits : List Char → List Char × List Char
  | [] => ([], [])
  | c :: cs =>
    if c.isDigit then
      let p := takeDigits cs
      (c :: p.1, p.2)
    else ([], c :: cs)

/-- Model of `re.findall(r"\d+\.\d+", s)[0]`: the leftmost match of
digits-dot-digits, returned as (integer-part digits, fractional-part
digits); `none` when the pattern does not occur (the `IndexError` case). -/
def findDecimal : List Char → Option (List Char × List Char)
  | [] => none
  | c :: cs =>
    if c.isDigit then
      let p := takeDigits (c :: cs)
      match p.2 with
      | '.' :: r2 =>
        let q := takeDigits r2
        if q.1 = [] then findDecimal cs else some (p.1, q.1)
      | _ => findDecimal cs
    else findDecimal cs

/-- Numeric value of a digit run. -/
def digitsToNat (ds : List Char) : Nat :=
  ds.foldl (fun a c => a * 10 + (c.toNat - '0'.toNat)) 0

/-- Model of Python `float("<int>.<frac>")` as an exact rational. -/
def parseDecimal (intPart fracPart : List Char) : ℚ :=
  (digitsToNat intPart : ℚ) + (digitsToNat fracPart : ℚ) / ((10 : ℚ) ^ fracPart.length)

/-- Floor of a rational as an integer, via flooring integer division. -/
def ratFloorZ (q : ℚ) : ℤ :=
  Int.fdiv q.num q.den

/-- Round-half-to-even on rationals, the rounding used by Python float
formatting. -/
def roundHalfEven (q : ℚ) : ℤ :=
  let f := ratFloorZ q
  let frac := q - (f : ℚ)
  if frac < 1 / 2 then f
  else if 1 / 2 < frac then f + 1
  else if f % 2 = 0 then f else f + 1

/-- Model of the Python format `f"{x:.1f}"` (one decimal digit) on an exact
rational value. -/
def fmt1 (q : ℚ) : String :=
  let n := roundHalfEven (q * 10)
  if n < 0 then
    "-" ++ toString ((-n).toNat / 10) ++ "." ++ toString ((-n).toNat % 10)
  else
    toString (n.toNat / 10) ++ "." ++ toString (n.toNat % 10)

/-- `CPU._format_value`: extract the first `\d+\.\d+` substring of the
expected value, compare it with the measured value, and render the measured
value plain on a match and bold otherwise; the `IndexError`/`ValueError`
handler also renders bold. -/
def cpuFormatValue (expectedValue : String) (actualValue : ℚ) : String :=
  match findDecimal expectedValue.toList with
  | some p =>
    let cleaned := parseDecimal p.1 p.2
    if cleaned = actualValue then fmt1 actualValue
    else "**" ++ fmt1 actualValue ++ "**"
  | none => "**" ++ fmt1 actualValue ++ "**"

/-- `RAM._format_value`: a direct comparison of the rated `Speed` and the
`ConfiguredClockSpeed` WMI fields (integers), rendering the actual value
plain on equality and wrapped in `**_ _**` otherwise. -/
def ramFormatValue (expectedValue actualValue : Int) : String :=
  if expectedValue = actualValue then toString actualValue
  else "**_" ++ toString actualValue ++ "_**"

/-- The claim-shaped predicate for the expected-vs-actual formatter: the
expected text parses (first `\d+\.\d+` occurrence) to exactly the actual
value. -/
def expectedMatchesActual (expectedValue : String) (actualValue : ℚ) : Bool :=
  match findDecimal expectedValue.toList with
  | some p => parseDecimal p.1 p.2 == actualValue
  | none => false

/-- The `cpuinfo.get_cpu_info()` dict, restricted to the keys `CPU` reads;
absent keys model `dict.get` defaults. -/
structure CpuInfo where
  brandRaw : Option String
  vendorIdRaw : Option String
  arch : Option String
  bits : Option String
  hzAdvertisedFriendly : Option String
  l1DataCacheSize : Option String
  l2CacheSize : Option String
  l3CacheSize : Option String
  flags : List String
deriving DecidableEq, Repr

/-- `CPU.get_cpu_name`. -/
def getCpuName (i : CpuInfo) : String :=
  i.brandRaw.getD "Unknown"

/-- `CPU._get_cache_info`. -/
def getCacheInfo (i : CpuInfo) : String :=
  "L1 Cache: " ++ i.l1DataCacheSize.getD "Unknown" ++
  ", L2 Cache: " ++ i.l2CacheSize.getD "Unknown" ++
  ", L3 Cache: " ++ i.l3CacheSize.getD "Unknown"

/-- `CPU.get_summary`: NO try/except in the source, so a failing
`psutil.cpu_count` query propagates; the fallible psutil calls are `Except`
inputs bound in evaluation order. -/
def cpuGetSummary (i : CpuInfo) (cpuCountPhysical cpuCountLogical : Except PyErr Int) :
    Except PyErr String := do
  let cores ← cpuCountPhysical
  let threads ← cpuCountLogical
  pure ("**Name:** " ++ getCpuName i ++
        "\n**Cores:** " ++ toString cores ++
        "\n**Threads:** " ++ toString threads ++
        "\n**Architecture:** " ++ i.arch.getD "Unknown" ++ "\n")

/-- `CPU.get_details`: NO try/except in the source; `psutil.cpu_freq()` is
queried first (its failure - e.g. returning `None` so that `.current`
raises - propagates), then the counts. -/
def cpuGetDetails (i : CpuInfo) (cpuFreqCurrent : Except PyErr ℚ)
    (cpuCountPhysical cpuCountLogical : Except PyErr Int) : Except PyErr String := do
  let freq ← cpuFreqCurrent
  let cores ← cpuCountPhysical
  let threads ← cpuCountLogical
  pure ("**Name:** " ++ getCpuName i ++
        "\n**Vendor ID:** " ++ i.vendorIdRaw.getD "Unknown" ++
        "\n**Architecture:** " ++ i.arch.getD "Unknown" ++
        "\n**Bits:** " ++ i.bits.getD "Unknown" ++
        "\n**Cores:** " ++ toString cores ++
        "\n**Threads:** " ++ toString threads ++
        "\n**Frequency:** " ++ fmt1 freq ++ " MHz" ++
        "\n**Configured Frequency:** " ++
        cpuFormatValue (i.hzAdvertisedFriendly.getD "Unknown") freq ++ " MHz" ++
        "\n**Cache Sizes:** " ++ getCacheInfo i ++
        "\n**Flags:** " ++ String.intercalate ", " i.flags ++ "\n")

/-- `System.get_summary`: `try/except Exception as e` returning a
placeholder that embeds the exception text. -/
def systemGetSummary (fetch : Except PyErr String) : Except PyErr String :=
  match fetch with
  | .ok s => .ok s
  | .error e => .ok ("**System Information**\nFailed to fetch system summary: " ++ e.msg ++ "\n")

/-- `System.get_details`. -/
def systemGetDetails (fetch : Except PyErr String) : Except PyErr String :=
  match fetch with
  | .ok s => .ok s
  | .error e =>
      .ok ("**Detailed System Information**\nFailed to fetch detailed system information: " ++
           e.msg ++ "\n")

/-- `RAM.get_summary`: blanket `except Exception` with a fixed placeholder. -/
def ramGetSummary (fetch : Except PyErr String) : Except PyErr String :=
  match fetch with
  | .ok s => .ok s
  | .error _ => .ok "**RAM Information**\nFailed to fetch RAM summary.\n"

/-- `RAM.get_details`. -/
def ramGetDetails (fetch : Except PyErr String) : Except PyErr String :=
  match fetch with
  | .ok s => .ok s
  | .error _ => .ok "**Detailed RAM Information**\nFailed to fetch detailed RAM information.\n"

/-- `Disk.get_summary`: `except wmi.x_wmi` and a second blanket handler. -/
def diskGetSummary (fetch : Except PyErr String) : Except PyErr String :=
  match fetch with
  | .ok s => .ok s
  | .error (.wmiErr _) => .ok "**Disk Information**\nFailed to fetch disk summary.\n"
  | .error (.otherErr _) => .ok "**Disk Information**\nAn unexpected error occurred.\n"

/-- `Disk.get_details`. -/
def diskGetDetails (fetch : Except PyErr String) : Except PyErr String :=
  match fetch with
  | .ok s => .ok s
  | .error (.wmiErr _) =>
      .ok "**Detailed Disk Information**\nFailed to fetch detailed disk information.\n"
  | .error (.otherErr _) => .ok "**Detailed Disk Information**\nAn unexpected error occurred.\n"

/-- `Network.get_summary`: blanket `except Exception`. -/
def networkGetSummary (fetch : Except PyErr String) : Except PyErr String :=
  match fetch with
  | .ok s => .ok s
  | .error _ => .ok "**Network Information**\nFailed to fetch network summary.\n"

/-- `Network.get_details`. -/
def networkGetDetails (fetch : Except PyErr String) : Except PyErr String :=
  match fetch with
  | .ok s => .ok s
  | .error _ =>
      .ok "**Detailed Network Information**\nFailed to fetch detailed network information.\n"

/-- `Motherboard.get_summary`: `except wmi.x_wmi` plus blanket handler. -/
def motherboardGetSummary (fetch : Except PyErr String) : Except PyErr String :=
  match fetch with
  | .ok s => .ok s
  | .error (.wmiErr _) => .ok "**Motherboard Information**\nFailed to fetch motherboard summary.\n"
  | .error (.otherErr _) => .ok "**Motherboard Information**\nAn unexpected error occurred.\n"

/-- `Motherboard.get_details`. -/
def motherboardGetDetails (fetch : Except PyErr String) : Except PyErr String :=
  match fetch with
  | .ok s => .ok s
  | .error (.wmiErr _) =>
      .ok "**Detailed Motherboard Information**\nFailed to fetch detailed motherboard information.\n"
  | .error (.otherErr _) =>
      .ok "**Detailed Motherboard Information**\nAn unexpected error occurred.\n"

/-- One `Win32_BIOS` WMI row, restricted to the fields `_fetch_bios_summary`
reads. -/
structure BiosEntry where
  manufacturer : String
  smbiosVersion : String
deriving DecidableEq, Repr

/-- `BIOS._fetch_bios_summary`: the loop REASSIGNS `bios_info` on every row
(no `+=`), so the result is the text of the last row, and the empty string
when the WMI query returns no rows. -/
def biosFetchSummary (entries : List BiosEntry) : String :=
  entries.foldl
    (fun _ b => "**Manufacturer:** " ++ b.manufacturer ++ "\n**Version:** " ++
                b.smbiosVersion ++ "\n")
    ""

/-- `BIOS.get_summary`: `except wmi.x_wmi` plus blanket handler around
`_fetch_bios_summary`. -/
def biosGetSummary (fetch : Except PyErr (List BiosEntry)) : Except PyErr String :=
  match fetch with
  | .ok entries => .ok (biosFetchSummary entries)
  | .error (.wmiErr _) => .ok "**BIOS Information**\nFailed to fetch BIOS summary.\n"
  | .error (.otherErr _) => .ok "**BIOS Information**\nAn unexpected error occurred.\n"

/-- `BIOS.get_details`: same handler structure, detail placeholders. -/
def biosGetDetails (fetch : Except PyErr String) : Except PyErr String :=
  match fetch with
  | .ok s => .ok s
  | .error (.wmiErr _) =>
      .ok "**Detailed BIOS Information**\nFailed to fetch detailed BIOS information.\n"
  | .error (.otherErr _) => .ok "**Detailed BIOS Information**\nAn unexpected error occurred.\n"

/-- `GPU.get_summary`: no try/except of its own; the three detection helpers
(`has_integrated_gpu`, `has_opencl_gpu`, `is_nvidia_smi_available`) catch
only their library-specific errors, so their modelled outcomes are `Except`
inputs whose errors propagate; the `_fetch_*` helpers catch internally and
are total string inputs. -/
def gpuGetSummary (detIntegrated detOpencl detNvidia : Except PyErr Bool)
    (integratedText openclText nvidiaText : String) : Except PyErr String := do
  let h1 ← detIntegrated
  let h2 ← detOpencl
  let h3 ← detNvidia
  let parts := (if h1 then [integratedText] else []) ++
               (if h2 then [openclText] else []) ++
               (if h3 then [nvidiaText] else [])
  if parts.isEmpty then
    pure "**GPU Information**\nNo supported GPU found.\n"
  else
    pure (String.intercalate "\n" parts)

/-- `GPU.get_details`: same structure with the detailed fetchers and the
detailed fallback string. -/
def gpuGetDetails (detIntegrated detOpencl detNvidia : Except PyErr Bool)
    (integratedText openclText nvidiaText : String) : Except PyErr String := do
  let h1 ← detIntegrated
  let h2 ← detOpencl
  let h3 ← detNvidia
  let parts := (if h1 then [integratedText] else []) ++
               (if h2 then [openclText] else []) ++
               (if h3 then [nvidiaText] else [])
  if parts.isEmpty then
    pure "**Detailed GPU Information**\nNo supported GPU found.\n"
  else
    pure (String.intercalate "\n" parts)

/-- The `form_factors` dict of `RAM._get_form_factor`, as an ordered
association list. -/
def formFactors : List (Nat × String) :=
  [(0, "Unknown"), (1, "Other"), (2, "SIP"), (3, "DIP"), (4, "ZIP"), (5, "SOJ"),
   (6, "Proprietary"), (7, "SIMM"), (8, "DIMM"), (9, "TSOP"), (10, "PGA"),
   (11, "RIMM"), (12, "SODIMM"), (13, "SRIMM"), (14, "FB-DIMM")]

/-- `RAM._get_form_factor`: `form_factors.get(code, "Unknown")`. -/
def getFormFactor (code : Nat) : String :=
  (formFactors.lookup code).getD "Unknown"

/-- The `memory_types` dict of `RAM._get_memory_type` (note: no key 23). -/
def memoryTypes : List (Nat × String) :=
  [(0, "Unknown"), (1, "Other"), (2, "DRAM"), (3, "Synchronous DRAM"),
   (4, "Cache DRAM"), (5, "EDO"), (6, "EDRAM"), (7, "VRAM"), (8, "SRAM"),
   (9, "RAM"), (10, "ROM"), (11, "Flash"), (12, "EEPROM"), (13, "FEPROM"),
   (14, "EPROM"), (15, "CDRAM"), (16, "3DRAM"), (17, "SDRAM"), (18, "SGRAM"),
   (19, "RDRAM"), (20, "DDR"), (21, "DDR2"), (22, "DDR2 FB-DIMM"),
   (24, "DDR3"), (25, "FBD2")]

/-- `RAM._get_memory_type`: `memory_types.get(code, "Unknown")`. -/
def getMemoryType (code : Nat) : String :=
  (memoryTypes.lookup code).getD "Unknown"

/-- The `characteristic_descriptions` dict of
`BIOS._get_bios_characteristics`. -/
def characteristicDescriptions : List (Nat × String) :=
  [(0, "Reserved"), (1, "BIOS Characteristics Not Supported"),
   (2, "ISA is supported"), (3, "MCA is supported"), (4, "EISA is supported"),
   (5, "PCI is supported"), (6, "PC Card (PCMCIA) is supported"),
   (7, "Plug and Play is supported"), (8, "APM is supported"),
   (9, "BIOS is upgradeable"), (10, "BIOS shadowing is allowed"),
   (11, "VLB is supported"), (12, "ESCD support is available"),
   (13, "Boot from CD is supported"), (14, "Selectable Boot is supported"),
   (15, "BIOS ROM is socketed"), (16, "Boot from PCMCIA is supported"),
   (17, "EDD is supported"), (18, "Print screen service is supported"),
   (19, "8042 keyboard services are supported"),
   (20, "Serial services are supported"), (21, "Printer services are supported"),
   (22, "CGA/Mono video services are supported"), (23, "NEC PC-98"),
   (24, "ACPI is supported"), (25, "USB legacy is supported"),
   (26, "AGP is supported"), (27, "I2O boot is supported"),
   (28, "LS-120 boot is supported"), (29, "ATAPI ZIP drive boot is supported"),
   (30, "1394 boot is supported"), (31, "Smart battery is supported"),
   (32, "BIOS Boot Specification is supported"),
   (33, "Function key-initiated network boot is supported"),
   (34, "Targeted content distribution is supported"), (35, "UEFI is supported")]

/-- Lookup of one characteristic code:
`characteristic_descriptions.get(char, "Unknown")`. -/
def getBiosCharacteristic (code : Nat) : String :=
  (characteristicDescriptions.lookup code).getD "Unknown"

/-- `BIOS._get_bios_characteristics`: comma-space join over the per-code
lookups. -/
def getBiosCharacteristics (codes : List Nat) : String :=
  String.intercalate ", " (codes.map getBiosCharacteristic)

/-! Helper definitions and lemmas shared by the claim theorems. -/

/-- Concatenation of the images of a list under a string-valued function;
used to restate the accumulating `+=` loops of `report.py` section by
section. -/
def concatMap {α : Type} (f : α → String) : List α → String
  | [] => ""
  | x :: xs => f x ++ concatMap f xs

/-- A left fold that appends `f x` per element equals the accumulator
followed by the concatenation of the images. -/
theorem foldl_append_concatMap {α : Type} (f : α → String) :
    ∀ (l : List α) (acc : String),
    l.foldl (fun a x => a ++ f x) acc = acc ++ concatMap f l := by
  intro l
  induction l with
  | nil => intro acc; simp [concatMap]
  | cons x xs ih => intro acc; simp only [List.foldl_cons, concatMap, ih, String.append_assoc]

/-- A selection map with every flag false has no selected entries. -/
theorem filter_map_false (names : List String) :
    ((names.map (fun n => (n, false))).filter (fun kv => kv.2)) = [] := by
  induction names with
  | nil => rfl
  | cons n ns ih => simp [ih]

/-- A key absent from the association list looks up to `none` (the
`dict.get(key, default)` fallback case). -/
theorem lookup_none_of_not_mem {α β : Type} [BEq α] [LawfulBEq α]
    (c : α) : ∀ (l : List (α × β)), c ∉ l.map Prod.fst → l.lookup c = none := by
  intro l
  induction l with
  | nil => intro _; rfl
  | cons kv t ih =>
    intro h
    simp only [List.map_cons, List.mem_cons] at h
    push_neg at h
    have hb : (c == kv.1) = false := beq_eq_false_iff_ne.mpr h.1
    simp [List.lookup, hb, ih h.2]

/-- Generalised-accumulator form of the selected-details loop. -/
theorem selectedDetails_foldl_aux (cmap : List (String × Component)) :
    ∀ (sel : List (String × Bool)) (acc : String),
    sel.foldl
      (fun acc kv =>
        if kv.2 then
          match cmap.lookup kv.1 with
          | some c => acc ++ (selectedDetailsSectionHeader kv.1 ++ (c.details ++ "\n---\n"))
          | none => acc
        else acc)
      acc =
    acc ++ concatMap (fun kv =>
        if kv.2 then
          match cmap.lookup kv.1 with
          | some c => selectedDetailsSectionHeader kv.1 ++ (c.details ++ "\n---\n")
          | none => ""
        else "") sel := by
  intro sel
  induction sel with
  | nil => intro acc; simp [concatMap]
  | cons kv t ih =>
    intro acc
    simp only [List.foldl_cons, concatMap]
    rw [ih]
    by_cases h : kv.2
    · simp only [h, if_true]
      cases hl : cmap.lookup kv.1 <;> simp [String.append_assoc]
    · simp [h]

/-- The component set with the class names of the eight concrete hardware
classes (`System`, `CPU`, `GPU`, `RAM`, `Disk`, `Network`, `Motherboard`,
`BIOS` from `noctua/hardware/`), with the given summary and detail texts. -/
def mkComponents (s1 s2 s3 s4 s5 s6 s7 s8 d1 d2 d3 d4 d5 d6 d7 d8 : String) : ComponentSet :=
  ⟨⟨"System", s1, d1⟩, ⟨"CPU", s2, d2⟩, ⟨"GPU", s3, d3⟩, ⟨"RAM", s4, d4⟩,
   ⟨"Disk", s5, d5⟩, ⟨"Network", s6, d6⟩, ⟨"Motherboard", s7, d7⟩, ⟨"BIOS", s8, d8⟩⟩

/-- One-decimal rendering of the rational 18/5 = 3.6. -/
theorem fmt1_of_36 : fmt1 ((18 : ℚ)/5) = "3.6" := by
  have h4 : ((18 : ℚ)/5) * 10 = 36 := by norm_num
  have h5 : roundHalfEven 36 = 36 := by
    have hf : ratFloorZ 36 = 36 := by simp [ratFloorZ]
    simp [roundHalfEven, hf]
  rw [fmt1, h4, h5]
  decide

/-- The digit pair 3.6 parses to 18/5. -/
theorem parse36 : parseDecimal ['3'] ['6'] = (18 : ℚ)/5 := by
  have h1 : digitsToNat ['3'] = 3 := by decide
  have h2 : digitsToNat ['6'] = 6 := by decide
  simp [parseDecimal, h1, h2]
  norm_num

/-- The digit pair 4.2 parses to 21/5. -/
theorem parse42 : parseDecimal ['4'] ['2'] = (21 : ℚ)/5 := by
  have h1 : digitsToNat ['4'] = 4 := by decide
  have h2 : digitsToNat ['2'] = 2 := by decide
  simp [parseDecimal, h1, h2]
  norm_num

/-! The claim theorems. -/

/-- Claim C1 counterexample: at the concrete write failure "disk full",
`_save_report` raises nothing to its caller (`raised = none`), and neither
does `generate_report` - contradicting the claim that every OS/IO write
error surfaces to the caller. -/
theorem claimC1_counterexample :
    (saveReport (Except.error ⟨"disk full"⟩)
        "result/hardware_report_unnamed_pc_20250101_120000.md").raised = none ∧
    ¬ (saveReport (Except.error ⟨"disk full"⟩)
        "result/hardware_report_unnamed_pc_20250101_120000.md").raised =
      some ⟨"disk full"⟩ ∧
    (generateReport (Except.error ⟨"disk full"⟩)
        "result/hardware_report_unnamed_pc_20250101_120000.md").raised = none := by
  refine ⟨rfl, ?_, rfl⟩
  intro h
  cases h

/-- Claim C1 (amended): on a persistence failure the report writer catches
the OS/IO error, logs the failure message, and raises nothing; for every
write outcome `generate_report` returns normally - on a failed write it
even appends the success log line, because `_save_report` swallowed the
error. -/
theorem claimC1_persistence_errors_swallowed :
    ∀ (e : OsError) (path : String),
    saveReport (Except.error e) path =
      { raised := none
        logs := ["Failed to save the report due to an error: " ++ e.msg] } ∧
    generateReport (Except.error e) path =
      { raised := none
        logs := ["Failed to save the report due to an error: " ++ e.msg,
                 "Report successfully created at: " ++ path] } ∧
    ∀ (w : Except OsError Unit), (generateReport w path).raised = none := by
  intro e path
  refine ⟨rfl, rfl, ?_⟩
  intro w
  cases w <;> rfl

/-- Claim C2 counterexample: `CPU.get_details` propagates a failing
`psutil.cpu_freq` query as an exception instead of returning a placeholder,
and `BIOS.get_summary` returns the empty string when the WMI query yields
no rows - contradicting the claim that every collector method never raises
and never returns an empty result. -/
theorem claimC2_counterexample :
    cpuGetDetails
      ⟨some "Intel Core", some "GenuineIntel", some "X86_64", some "64",
       some "3.6000 GHz", some "32 KiB", some "512 KiB", some "8 MiB", ["sse2"]⟩
      (Except.error (PyErr.otherErr "cpu_freq query failed"))
      (Except.ok 8) (Except.ok 16) =
      Except.error (PyErr.otherErr "cpu_freq query failed") ∧
    biosGetSummary (Except.ok []) = Except.ok "" :=
  ⟨rfl, rfl⟩

/-- Claim C2 (amended): the guarded collectors (System, RAM, Disk, Network,
Motherboard, BIOS) never raise - every fetch outcome maps to `ok`, with a
fixed non-empty placeholder on failure - but `CPU.get_summary` and
`CPU.get_details` are unguarded and propagate underlying query errors, the
GPU detection helpers likewise propagate their unhandled errors, and a
succeeding BIOS summary query with zero rows yields the empty string. -/
theorem claimC2_collector_error_behaviour :
    (∀ f : Except PyErr String,
      (systemGetSummary f).isOk = true ∧ (systemGetDetails f).isOk = true ∧
      (ramGetSummary f).isOk = true ∧ (ramGetDetails f).isOk = true ∧
      (diskGetSummary f).isOk = true ∧ (diskGetDetails f).isOk = true ∧
      (networkGetSummary f).isOk = true ∧ (networkGetDetails f).isOk = true ∧
      (motherboardGetSummary f).isOk = true ∧ (motherboardGetDetails f).isOk = true ∧
      (biosGetDetails f).isOk = true) ∧
    (∀ g : Except PyErr (List BiosEntry), (biosGetSummary g).isOk = true) ∧
    (∀ e : PyErr,
      ramGetSummary (Except.error e) =
        Except.ok "**RAM Information**\nFailed to fetch RAM summary.\n" ∧
      networkGetSummary (Except.error e) =
        Except.ok "**Network Information**\nFailed to fetch network summary.\n" ∧
      systemGetSummary (Except.error e) =
        Except.ok ("**System Information**\nFailed to fetch system summary: " ++
                   e.msg ++ "\n")) ∧
    (∀ m : String,
      diskGetSummary (Except.error (PyErr.wmiErr m)) =
        Except.ok "**Disk Information**\nFailed to fetch disk summary.\n" ∧
      motherboardGetSummary (Except.error (PyErr.otherErr m)) =
        Except.ok "**Motherboard Information**\nAn unexpected error occurred.\n" ∧
      biosGetSummary (Except.error (PyErr.wmiErr m)) =
        Except.ok "**BIOS Information**\nFailed to fetch BIOS summary.\n") ∧
    (∀ (i : CpuInfo) (e : PyErr) (c t : Except PyErr Int),
      cpuGetSummary i (Except.error e) t = Except.error e ∧
      cpuGetDetails i (Except.error e) c t = Except.error e) ∧
    (∀ (e : PyErr) (d2 d3 : Except PyErr Bool) (x y z : String),
      gpuGetSummary (Except.error e) d2 d3 x y z = Except.error e ∧
      gpuGetDetails (Except.error e) d2 d3 x y z = Except.error e) ∧
    biosFetchSummary [] = "" ∧
    biosGetSummary (Except.ok []) = Except.ok "" := by
  refine ⟨?_, ?_, ?_, ?_, ?_, ?_, rfl, rfl⟩
  · intro f
    cases f with
    | ok s =>
      exact ⟨rfl, rfl, rfl, rfl, rfl, rfl, rfl, rfl, rfl, rfl, rfl⟩
    | error e =>
      cases e <;>
        exact ⟨rfl, rfl, rfl, rfl, rfl, rfl, rfl, rfl, rfl, rfl, rfl⟩
  · intro g
    cases g with
    | ok entries => rfl
    | error e => cases e <;> rfl
  · intro e
    exact ⟨rfl, rfl, rfl⟩
  · intro m
    exact ⟨rfl, rfl, rfl⟩
  · intro i e c t
    exact ⟨rfl, rfl⟩
  · intro e d2 d3 x y z
    exact ⟨rfl, rfl⟩

/-- Claim C3: the expected-vs-actual formatters render the actual value
plain exactly when the expected value parses to the same number, and
emphasized (including the unparsable-expected case, which never raises)
otherwise; concretely 3.6 renders as "3.6" against expected "3.6 GHz",
and as "**3.6**" against "4.2 GHz" or the unparsable "Unknown", while the
RAM formatter renders 3200 plain against 3200 and 2933 emphasized against
3200. -/
theorem claimC3_expected_vs_actual_formatting :
    (∀ (e : String) (a : ℚ),
      cpuFormatValue e a =
        if expectedMatchesActual e a then fmt1 a else "**" ++ fmt1 a ++ "**") ∧
    (∀ er ar : Int,
      ramFormatValue er ar =
        if er = ar then toString ar else "**_" ++ toString ar ++ "_**") ∧
    cpuFormatValue "3.6 GHz" ((18 : ℚ)/5) = "3.6" ∧
    cpuFormatValue "4.2 GHz" ((18 : ℚ)/5) = "**3.6**" ∧
    cpuFormatValue "Unknown" ((18 : ℚ)/5) = "**3.6**" ∧
    ramFormatValue 3200 3200 = "3200" ∧
    ramFormatValue 3200 2933 = "**_2933_**" := by
  refine ⟨?_, ?_, ?_, ?_, ?_, rfl, rfl⟩
  · intro e a
    unfold cpuFormatValue expectedMatchesActual
    cases h : findDecimal e.toList with
    | none => simp
    | some p =>
      by_cases hc : parseDecimal p.1 p.2 = a
      · simp [hc]
      · simp [hc, beq_iff_eq]
  · intro er ar
    rfl
  · have h1 : findDecimal ['3', '.', '6', ' ', 'G', 'H', 'z'] = some (['3'], ['6']) := by decide
    simp [cpuFormatValue, h1, parse36, fmt1_of_36]
  · have h1 : findDecimal ['4', '.', '2', ' ', 'G', 'H', 'z'] = some (['4'], ['2']) := by decide
    have hne : (21 : ℚ)/5 ≠ 18/5 := by norm_num
    simp [cpuFormatValue, h1, parse42, hne, fmt1_of_36]
  · have h1 : findDecimal ['U', 'n', 'k', 'n', 'o', 'w', 'n'] = none := by decide
    simp [cpuFormatValue, h1, fmt1_of_36]

/-- Claim C4 counterexample: the overview header for the CPU class is
bold-wrapped `## **CPU Information**` and not the bare
`## CPU Information`, and the selection-path detail header for key "cpu"
is `## Detailed Cpu Information`, differing from the detailed-mode header
`## Detailed CPU Information` of the same domain - so neither the overview
nor the per-domain detail headers follow the single claimed exact form. -/
theorem claimC4_counterexample :
    overviewSectionHeader "CPU" = "## **CPU Information**\n" ∧
    overviewSectionHeader "CPU" ≠ "## CPU Information\n" ∧
    fullDetailsSectionHeader "CPU" = "\n## Detailed CPU Information\n" ∧
    selectedDetailsSectionHeader "cpu" = "\n## Detailed Cpu Information\n" ∧
    selectedDetailsSectionHeader "cpu" ≠ fullDetailsSectionHeader "CPU" := by
  refine ⟨by decide, by decide, by decide, by decide, by decide⟩

/-- Claim C4 (amended): every overview section is headed
`## **<DOMAIN> Information**` (class name upper-cased, wrapped in bold),
every detailed-mode section is headed `## Detailed <DOMAIN> Information`
(class name upper-cased), and every selection-path section is headed
`## Detailed <Name> Information` with the selection key capitalized; the
three generators produce exactly one such header per emitted section. -/
theorem claimC4_section_headers :
    (∀ comps : List Component,
      generateOverview comps =
        "# **Hardware Overview**\n\n" ++
        concatMap (fun c => overviewSectionHeader c.className ++ (c.summary ++ "\n---\n")) comps) ∧
    (∀ comps : List Component,
      generateFullDetails comps =
        concatMap (fun c => fullDetailsSectionHeader c.className ++ (c.details ++ "\n---\n")) comps) ∧
    (∀ (sel : List (String × Bool)) (cmap : List (String × Component)),
      generateSelectedComponentDetails sel cmap =
        concatMap (fun kv =>
          if kv.2 then
            match cmap.lookup kv.1 with
            | some c => selectedDetailsSectionHeader kv.1 ++ (c.details ++ "\n---\n")
            | none => ""
          else "") sel) ∧
    (∀ name : String, overviewSectionHeader name = "## **" ++ pyUpper name ++ " Information**\n") ∧
    (∀ name : String,
      fullDetailsSectionHeader name = "\n## Detailed " ++ pyUpper name ++ " Information\n") ∧
    (∀ name : String,
      selectedDetailsSectionHeader name =
        "\n## Detailed " ++ pyCapitalize name ++ " Information\n") ∧
    fullDetailsSectionHeader "System" = "\n## Detailed SYSTEM Information\n" ∧
    selectedDetailsSectionHeader "system" = "\n## Detailed System Information\n" ∧
    selectedDetailsSectionHeader "bios" = "\n## Detailed Bios Information\n" ∧
    overviewSectionHeader "Disk" = "## **DISK Information**\n" := by
  refine ⟨?_, ?_, ?_, fun _ => rfl, fun _ => rfl, fun _ => rfl,
    by decide, by decide, by decide, by decide⟩
  · intro comps
    have h := foldl_append_concatMap
      (fun c => overviewSectionHeader c.className ++ (c.summary ++ "\n---\n"))
      comps "# **Hardware Overview**\n\n"
    simpa [generateOverview] using h
  · intro comps
    have h := foldl_append_concatMap
      (fun c => fullDetailsSectionHeader c.className ++ (c.details ++ "\n---\n"))
      comps ""
    simpa [generateFullDetails] using h
  · intro sel cmap
    unfold generateSelectedComponentDetails
    rw [selectedDetails_foldl_aux]
    simp

/-- Claim C5: with includeAll true and all eight collectors succeeding with
summaries s1..s8, the compiled report starts with the header followed by
the overview block, and the overview block consists of exactly the eight
overview sections in the fixed order System, CPU, GPU, RAM, Disk, Network,
Motherboard, BIOS, each closed by a `---` horizontal-rule line. -/
theorem claimC5_overview_eight_sections :
    ∀ (ts pc : String) (sel : List (String × Bool)) (det : Bool)
      (s1 s2 s3 s4 s5 s6 s7 s8 d1 d2 d3 d4 d5 d6 d7 d8 : String),
    (∃ rest, compileReportContent sel true det ts pc
        (mkComponents s1 s2 s3 s4 s5 s6 s7 s8 d1 d2 d3 d4 d5 d6 d7 d8) =
      headerContent ts pc ++
        generateOverview (mkComponents s1 s2 s3 s4 s5 s6 s7 s8 d1 d2 d3 d4 d5 d6 d7 d8).toList ++
        rest) ∧
    generateOverview (mkComponents s1 s2 s3 s4 s5 s6 s7 s8 d1 d2 d3 d4 d5 d6 d7 d8).toList =
      "# **Hardware Overview**\n\n" ++
      ("## **SYSTEM Information**\n" ++ (s1 ++ "\n---\n")) ++
      ("## **CPU Information**\n" ++ (s2 ++ "\n---\n")) ++
      ("## **GPU Information**\n" ++ (s3 ++ "\n---\n")) ++
      ("## **RAM Information**\n" ++ (s4 ++ "\n---\n")) ++
      ("## **DISK Information**\n" ++ (s5 ++ "\n---\n")) ++
      ("## **NETWORK Information**\n" ++ (s6 ++ "\n---\n")) ++
      ("## **MOTHERBOARD Information**\n" ++ (s7 ++ "\n---\n")) ++
      ("## **BIOS Information**\n" ++ (s8 ++ "\n---\n")) ∧
    (mkComponents s1 s2 s3 s4 s5 s6 s7 s8 d1 d2 d3 d4 d5 d6 d7 d8).toList.map
        Component.className =
      ["System", "CPU", "GPU", "RAM", "Disk", "Network", "Motherboard", "BIOS"] ∧
    (mkComponents s1 s2 s3 s4 s5 s6 s7 s8 d1 d2 d3 d4 d5 d6 d7 d8).toList.length = 8 := by
  intro ts pc sel det s1 s2 s3 s4 s5 s6 s7 s8 d1 d2 d3 d4 d5 d6 d7 d8
  refine ⟨?_, rfl, rfl, rfl⟩
  refine ⟨if det then
      generateFullDetails (mkComponents s1 s2 s3 s4 s5 s6 s7 s8 d1 d2 d3 d4 d5 d6 d7 d8).toList
    else if (sel.filter (fun kv => kv.2)).map (fun kv => kv.1) ≠ [] then
      generateSelectedComponentDetails sel
        (componentsMap (mkComponents s1 s2 s3 s4 s5 s6 s7 s8 d1 d2 d3 d4 d5 d6 d7 d8))
    else "\nNo components selected.", ?_⟩
  simp only [compileReportContent, if_true]
  split
  · rfl
  · split
    · rfl
    · rfl

/-- Claim C6: with every selection flag false, includeAll false and
detailed false, the compiled report is exactly the header followed by the
literal notice "No components selected." (separated by the newline the
source writes). -/
theorem claimC6_no_components_notice :
    ∀ (names : List String) (ts pc : String) (cs : ComponentSet),
    compileReportContent (names.map (fun n => (n, false))) false false ts pc cs =
      headerContent ts pc ++ "\nNo components selected." := by
  intro names ts pc cs
  simp [compileReportContent, filter_map_false]

/-- Claim C7: with every selection flag false and detailed false, the
notice is emitted independently of includeAll - with includeAll true the
compiled report contains the full overview followed by the
"No components selected." notice in the same document. -/
theorem claimC7_overview_and_notice_coexist :
    ∀ (names : List String) (ts pc : String) (cs : ComponentSet),
    compileReportContent (names.map (fun n => (n, false))) true false ts pc cs =
      headerContent ts pc ++ generateOverview cs.toList ++ "\nNo components selected." := by
  intro names ts pc cs
  simp [compileReportContent, filter_map_false]

/-- Claim C8: with detailed true the full details of all eight components
are appended after the (optional) overview, for every selection map - the
selection is ignored, and the appended block is the concatenation of one
detail section per component. -/
theorem claimC8_detailed_includes_all_details :
    ∀ (sel sel2 : List (String × Bool)) (includeAll : Bool) (ts pc : String)
      (cs : ComponentSet),
    compileReportContent sel includeAll true ts pc cs =
      (if includeAll then headerContent ts pc ++ generateOverview cs.toList
       else headerContent ts pc) ++ generateFullDetails cs.toList ∧
    compileReportContent sel includeAll true ts pc cs =
      compileReportContent sel2 includeAll true ts pc cs ∧
    generateFullDetails cs.toList =
      concatMap (fun c => fullDetailsSectionHeader c.className ++ (c.details ++ "\n---\n"))
        cs.toList := by
  intro sel sel2 includeAll ts pc cs
  have hA : ∀ s : List (String × Bool),
      compileReportContent s includeAll true ts pc cs =
        (if includeAll then headerContent ts pc ++ generateOverview cs.toList
         else headerContent ts pc) ++ generateFullDetails cs.toList := by
    intro s
    cases includeAll <;> simp [compileReportContent]
  refine ⟨hA sel, (hA sel).trans (hA sel2).symm, ?_⟩
  have h := foldl_append_concatMap
    (fun c => fullDetailsSectionHeader c.className ++ (c.details ++ "\n---\n")) cs.toList ""
  simpa [generateFullDetails] using h

/-- Claim C9: the three hardware-code tables map defined codes to their
strings and every undefined code to "Unknown" (e.g. form factor 99 and
memory type 99), and the BIOS characteristics list [5, 7, 35] formats to
exactly "PCI is supported, Plug and Play is supported, UEFI is
supported". -/
theorem claimC9_lookup_tables :
    getBiosCharacteristics [5, 7, 35] =
      "PCI is supported, Plug and Play is supported, UEFI is supported" ∧
    getFormFactor 99 = "Unknown" ∧
    getMemoryType 99 = "Unknown" ∧
    (∀ code : Nat, code ∉ formFactors.map Prod.fst → getFormFactor code = "Unknown") ∧
    (∀ code : Nat, code ∉ memoryTypes.map Prod.fst → getMemoryType code = "Unknown") ∧
    (∀ code : Nat, code ∉ characteristicDescriptions.map Prod.fst →
      getBiosCharacteristic code = "Unknown") := by
  refine ⟨by decide, by decide, by decide, ?_, ?_, ?_⟩
  · intro code h
    unfold getFormFactor
    rw [lookup_none_of_not_mem code formFactors h]
    rfl
  · intro code h
    unfold getMemoryType
    rw [lookup_none_of_not_mem code memoryTypes h]
    rfl
  · intro code h
    unfold getBiosCharacteristic
    rw [lookup_none_of_not_mem code characteristicDescriptions h]
    rfl

/-- Witness for claim C9: the undefined codes 99 (form factor), 23 (memory
type - absent between 22 and 24) and 36 (BIOS characteristic) all map to
"Unknown". -/
theorem claimC9_lookup_tables_witness :
    getFormFactor 99 = "Unknown" ∧
    getMemoryType 23 = "Unknown" ∧
    getBiosCharacteristic 36 = "Unknown" :=
  ⟨claimC9_lookup_tables.2.2.2.1 99 (by decide),
   claimC9_lookup_tables.2.2.2.2.1 23 (by decide),
   claimC9_lookup_tables.2.2.2.2.2 36 (by decide)⟩

/-- Claim C10: the report file name is
`hardware_report_<sanitized-or-default>_<timestamp>.md` under `result`,
where "My PC" sanitizes to "My_PC" (spaces to underscores) and the empty
machine name defaults to "unnamed_pc". -/
theorem claimC10_report_file_name :
    ∀ (pcName timestamp : String),
    buildReportFileName pcName timestamp =
      "hardware_report_" ++
        (if pcName ≠ "" then sanitizePcName pcName else "unnamed_pc") ++
        "_" ++ timestamp ++ ".md" ∧
    buildReportFileName "My PC" timestamp =
      "hardware_report_My_PC_" ++ timestamp ++ ".md" ∧
    buildReportFileName "" timestamp =
      "hardware_report_unnamed_pc_" ++ timestamp ++ ".md" ∧
    sanitizePcName "My PC" = "My_PC" ∧
    buildReportFilePath pcName timestamp = "result/" ++ buildReportFileName pcName timestamp := by
  intro pcName ts
  refine ⟨rfl, ?_, ?_, by decide, rfl⟩
  · unfold buildReportFileName
    rw [if_pos (by decide)]
    have h2 : "hardware_report_" ++ sanitizePcName "My PC" ++ "_" = "hardware_report_My_PC_" := by
      decide
    rw [h2]
  · unfold buildReportFileName
    rw [if_neg (by decide)]
    have h2 : "hardware_report_" ++ "unnamed_pc" ++ "_" = "hardware_report_unnamed_pc_" := by
      decide
    rw [h2]

end Noctua
